import Mathlib

/-!
Shallow embedding of the diwrapper dependency-injection container
(diwrapper.go) and proofs about it.

Modelling conventions:
- A Go object reference is a `GoValue`: its pointer identity (`id`), its
  runtime type as printed by the %T format verb (`type`), whether its
  reflect kind is pointer (`kindPtr`), and its optional `Initializer` and
  `Cleaner` capabilities.  `initr = none` means the value does not
  implement `Initializer`; `initr = some r` means it does and its `Init()`
  call returns `r` (`none` = nil error, `some e` = an error whose text is
  `e`).  `cleanr` is the same for `Cleaner.Clean()`.
- `inject.Object` becomes `Object` (a value plus an optional name).
- The external facebookgo/inject graph is an oracle `Graph`: `provideRes`
  is the resolver answer to `Provide`, `populateRes` the answer to
  `Populate()`, and `resolvedObjects` the post-population `Objects()`
  list (a superset of the explicit registrations whenever the resolver
  auto-creates implicit dependency values).
- A Go panic is an `Except.error` carrying the panic message.  The
  registration methods additionally carry the receiver state at the time
  of the panic, so that "nothing was registered" is expressible.
- `initAsync` spawns one goroutine per entry of a batch and joins on a
  WaitGroup; the embedding determinises this to sequential iteration in
  entry order, recording the trace of values whose `Init()` ran.
-/

namespace Diwrapper

structure GoValue where
  id : Nat
  type : String
  kindPtr : Bool
  initr : Option (Option String)
  cleanr : Option (Option String)
deriving DecidableEq, Repr

structure Object where
  name : String := ""
  value : GoValue
deriving DecidableEq, Repr

structure Graph where
  providedLog : List Object
  provideRes : Object → Option String
  populateRes : Option String
  resolvedObjects : List Object

structure InjectWrapper where
  g : Graph
  objects : List (List Object)
  tmpObjects : List Object

/-- Embeds `WithObject`: wrap the value as an unnamed `inject.Object`,
forward it to the resolver, panic on a resolver error (state unchanged,
nothing buffered), otherwise append it to the registration buffer. -/
def InjectWrapper.WithObject (i : InjectWrapper) (object : GoValue) :
    Except (String × InjectWrapper) InjectWrapper :=
  let o : Object := { name := "", value := object }
  match i.g.provideRes o with
  | some e => .error ("Error providing object " ++ object.type ++ ":" ++ e, i)
  | none =>
    .ok { i with g := { i.g with providedLog := i.g.providedLog ++ [o] },
                 tmpObjects := i.tmpObjects ++ [o] }

/-- Embeds `WithObjectOrErr`: a non-nil constructor error panics at once
with that error; otherwise the body is that of `WithObject`. -/
def InjectWrapper.WithObjectOrErr (i : InjectWrapper) (object : GoValue)
    (err : Option String) : Except (String × InjectWrapper) InjectWrapper :=
  match err with
  | some e => .error (e, i)
  | none =>
    let o : Object := { name := "", value := object }
    match i.g.provideRes o with
    | some e => .error ("Error providing object " ++ object.type ++ ":" ++ e, i)
    | none =>
      .ok { i with g := { i.g with providedLog := i.g.providedLog ++ [o] },
                   tmpObjects := i.tmpObjects ++ [o] }

/-- Embeds `WithNamedObject`. -/
def InjectWrapper.WithNamedObject (i : InjectWrapper) (name : String)
    (obj : GoValue) : Except (String × InjectWrapper) InjectWrapper :=
  let o : Object := { name := name, value := obj }
  match i.g.provideRes o with
  | some e =>
    .error ("Error providing named object " ++ name ++ "." ++ obj.type ++ ":" ++ e, i)
  | none =>
    .ok { i with g := { i.g with providedLog := i.g.providedLog ++ [o] },
                 tmpObjects := i.tmpObjects ++ [o] }

/-- Embeds `InitAsync`: if the buffer is empty, return the receiver
unchanged; otherwise append the whole buffer as one batch and clear it. -/
def InjectWrapper.InitAsync (i : InjectWrapper) : InjectWrapper :=
  if i.tmpObjects.length = 0 then i
  else { i with objects := i.objects ++ [i.tmpObjects], tmpObjects := [] }

/-- Embeds `InitSync`: if the buffer is empty, return the receiver
unchanged; otherwise append one singleton batch per buffered entry, in
buffer order, and clear the buffer. -/
def InjectWrapper.InitSync (i : InjectWrapper) : InjectWrapper :=
  if i.tmpObjects.length = 0 then i
  else { i with objects := i.objects ++ i.tmpObjects.map (fun o => [o]),
                tmpObjects := [] }

/-- Embeds the nested loop of `AllObjects` collecting `o.Value` over the
batch list in batch-then-entry order. -/
def allObjectsLoop : List (List Object) → List GoValue
  | [] => []
  | objs :: rest => objs.map (fun o => o.value) ++ allObjectsLoop rest

/-- Embeds `AllObjects`. -/
def InjectWrapper.AllObjects (i : InjectWrapper) : List GoValue :=
  allObjectsLoop i.objects

/-- Inner loop of `MustGetNamedObject` over one batch: first entry whose
value runtime type equals the sample type and whose name equals the
requested name. -/
def findInBatch : List Object → String → String → Option GoValue
  | [], _, _ => none
  | obj :: rest, t, n =>
    if obj.value.type = t ∧ obj.name = n then some obj.value
    else findInBatch rest t n

/-- Outer loop of `MustGetNamedObject` over the batch list; the Go `return`
inside the nested loop makes this a first-match search. -/
def findObject : List (List Object) → String → String → Option GoValue
  | [], _, _ => none
  | objs :: rest, t, n =>
    match findInBatch objs t n with
    | some v => some v
    | none => findObject rest t n

/-- Embeds `MustGetNamedObject`: panic when the sample kind is not
pointer, otherwise scan the batch list and panic when nothing matches. -/
def InjectWrapper.MustGetNamedObject (i : InjectWrapper) (sample : GoValue)
    (name : String) : Except String GoValue :=
  if sample.kindPtr = false then
    .error ("Sample must be interface, found " ++ sample.type)
  else
    match findObject i.objects sample.type name with
    | some v => .ok v
    | none => .error ("Object not found: " ++ name ++ "." ++ sample.type)

/-- Embeds `MustGetObject`. -/
def InjectWrapper.MustGetObject (i : InjectWrapper) (sample : GoValue) :
    Except String GoValue :=
  i.MustGetNamedObject sample ""

/-- The nested loop of `CheckNoImplicitObjects` that sets `oOK`: is some
entry of some batch identity-equal (Go interface equality on pointer
values) to the given resolved value. -/
def valueInBatches (batches : List (List Object)) (v : GoValue) : Bool :=
  batches.any (fun objs => objs.any (fun obj => obj.value == v))

/-- Outer loop of `CheckNoImplicitObjects` over the resolver object set:
panic at the first resolved value not found in the batch list. -/
def checkLoop (batches : List (List Object)) : List Object → Except String Unit
  | [] => .ok ()
  | o :: rest =>
    if valueInBatches batches o.value then checkLoop batches rest
    else .error (o.value.type ++ " not explicitly created")

/-- Embeds `CheckNoImplicitObjects`. -/
def InjectWrapper.CheckNoImplicitObjects (i : InjectWrapper) :
    Except String InjectWrapper :=
  match checkLoop i.objects i.g.resolvedObjects with
  | .error e => .error e
  | .ok _ => .ok i

/-- Embeds the goroutine body loop of `initAsync`, determinised to entry
order: values implementing `Initializer` have `Init()` invoked (recorded
in the returned trace); a non-nil `Init()` error panics.  The panic
message applies %T to the loop variable `obj`, which is a
`*inject.Object`, so the printed type is always the literal
"*inject.Object" (and the message keeps the source typo "privided"). -/
def initAsyncLoop : List Object → Except String (List GoValue)
  | [] => .ok []
  | obj :: rest =>
    match obj.value.initr with
    | none => initAsyncLoop rest
    | some none =>
      match initAsyncLoop rest with
      | .ok tr => .ok (obj.value :: tr)
      | .error e => .error e
    | some (some e) =>
      .error ("Error initializing privided object *inject.Object:" ++ e)

/-- The batch loop of `InitializeGraphWithImplicitObjects`: run
`initAsync` on each batch in order, concatenating the init traces; a
panic in any batch propagates. -/
def runBatches : List (List Object) → Except String (List GoValue)
  | [] => .ok []
  | b :: rest =>
    match initAsyncLoop b with
    | .error e => .error e
    | .ok t =>
      match runBatches rest with
      | .error e => .error e
      | .ok ts => .ok (t ++ ts)

/-- Embeds `InitializeGraphWithImplicitObjects`: close the buffer as sync
singleton batches, call `Populate()` (panicking on a resolver error),
then initialize batch by batch.  Returns the final state and the trace
of values whose `Init()` hook ran. -/
def InjectWrapper.InitializeGraphWithImplicitObjects (i : InjectWrapper) :
    Except String (InjectWrapper × List GoValue) :=
  let j := i.InitSync
  match j.g.populateRes with
  | some e => .error ("Error populating graph: " ++ e)
  | none =>
    match runBatches j.objects with
    | .error e => .error e
    | .ok tr => .ok (j, tr)

/-- Embeds `InitializeGraph`: `InitializeGraphWithImplicitObjects`
followed by `CheckNoImplicitObjects` on the resulting state. -/
def InjectWrapper.InitializeGraph (i : InjectWrapper) :
    Except String (InjectWrapper × List GoValue) :=
  match i.InitializeGraphWithImplicitObjects with
  | .error e => .error e
  | .ok (j, tr) =>
    match j.CheckNoImplicitObjects with
    | .error e => .error e
    | .ok k => .ok (k, tr)

/-- Embeds the loop of `Stop`: for every value in `AllObjects` order that
implements `Cleaner`, invoke `Clean()` (first component: the trace of
cleaned values); a non-nil error is written to stderr (second component)
and iteration continues.  `Stop` contains no panic. -/
def stopLoop : List GoValue → List GoValue × List String
  | [] => ([], [])
  | v :: rest =>
    match v.cleanr with
    | none => stopLoop rest
    | some res =>
      let p := stopLoop rest
      match res with
      | none => (v :: p.1, p.2)
      | some e => (v :: p.1, ("Error cleaning " ++ v.type ++ ": " ++ e ++ "\n") :: p.2)

/-- Embeds `Stop`. -/
def InjectWrapper.Stop (i : InjectWrapper) : List GoValue × List String :=
  stopLoop i.AllObjects

/- Specification-side definitions (written from the words of the spec, to
be compared with the source embedding above). -/

/-- Spec side: the objects the caller explicitly registered, as they
stand right before initialization (batch list plus buffer). -/
def registeredValues (i : InjectWrapper) : List GoValue :=
  ((i.objects).flatten ++ i.tmpObjects).map (fun o => o.value)

/-- Spec side: the registered values implementing the Cleaner capability,
in batch-then-entry order. -/
def cleanersOf (vs : List GoValue) : List GoValue :=
  vs.filter (fun v => v.cleanr.isSome)

/-- Spec side: the error lines reported to the error sink by teardown,
one per Cleaner whose hook returned a non-nil error, in order. -/
def cleanErrorsOf (vs : List GoValue) : List String :=
  vs.filterMap (fun v =>
    match v.cleanr with
    | some (some e) => some ("Error cleaning " ++ v.type ++ ": " ++ e ++ "\n")
    | _ => none)

/-- Spec side: the first entry, in batch-then-entry order over the
flattened batch list, whose value type and name match. -/
def firstMatch (i : InjectWrapper) (t n : String) : Option Object :=
  (i.objects).flatten.find? (fun o => o.value.type == t && o.name == n)

/-- Replace the resolver object set of a wrapper (used to state that the
relaxed initialization path never consults the resolved object set). -/
def withResolved (i : InjectWrapper) (r : List Object) : InjectWrapper :=
  { i with g := { i.g with resolvedObjects := r } }

/- Concrete containers used to evaluate the definitions on closed inputs. -/

/-- An oracle resolver that accepts every registration, populates without
error and reports the given resolved object set. -/
def oracleGraph (resolved : List Object) : Graph :=
  { providedLog := [], provideRes := fun _ => none,
    populateRes := none, resolvedObjects := resolved }

/-- One registered worker implementing Initializer whose hook returns a
nil error. -/
def objC1 : Object :=
  { value := { id := 1, type := "*app.Worker", kindPtr := true,
               initr := some none, cleanr := none } }

def diC1 : InjectWrapper :=
  { g := oracleGraph [objC1], objects := [], tmpObjects := [objC1] }

/-- A container whose dependencies are fully resolvable but whose single
registered object has an Init hook returning an error. -/
def objC1bad : Object :=
  { value := { id := 1, type := "*app.Broken", kindPtr := true,
               initr := some (some "boom"), cleanr := none } }

def diC1bad : InjectWrapper :=
  { g := oracleGraph [objC1bad], objects := [], tmpObjects := [objC1bad] }

/-- Two containers identical except for the runtime type of the single
failing object, used to evaluate the init-panic message. -/
def objC5a : Object :=
  { value := { id := 1, type := "*main.Aaa", kindPtr := true,
               initr := some (some "boom"), cleanr := none } }

def objC5b : Object :=
  { value := { id := 1, type := "*main.Bbb", kindPtr := true,
               initr := some (some "boom"), cleanr := none } }

def diC5a : InjectWrapper :=
  { g := oracleGraph [objC5a], objects := [], tmpObjects := [objC5a] }

def diC5b : InjectWrapper :=
  { g := oracleGraph [objC5b], objects := [], tmpObjects := [objC5b] }

/-- A container with two buffered entries and one with an empty buffer. -/
def objC8a : Object :=
  { value := { id := 1, type := "*app.S1", kindPtr := true,
               initr := none, cleanr := none } }

def objC8b : Object :=
  { value := { id := 2, type := "*app.S2", kindPtr := true,
               initr := none, cleanr := none } }

def diC8 : InjectWrapper :=
  { g := oracleGraph [], objects := [], tmpObjects := [objC8a, objC8b] }

def diC8e : InjectWrapper :=
  { g := oracleGraph [], objects := [[objC8a]], tmpObjects := [] }

/-- A container holding two same-typed unnamed entries with distinct
identities, for the first-match query property. -/
def objC9a : Object :=
  { value := { id := 1, type := "*app.Dup", kindPtr := true,
               initr := none, cleanr := none } }

def objC9b : Object :=
  { value := { id := 2, type := "*app.Dup", kindPtr := true,
               initr := none, cleanr := none } }

def diC9 : InjectWrapper :=
  { g := oracleGraph [objC9a, objC9b], objects := [[objC9a], [objC9b]],
    tmpObjects := [] }

def sampleC9 : GoValue :=
  { id := 99, type := "*app.Dup", kindPtr := true, initr := none, cleanr := none }

/- Helper lemmas about the batch-closing operations. -/

theorem initSync_tmpObjects (i : InjectWrapper) : (i.InitSync).tmpObjects = [] := by
  unfold InjectWrapper.InitSync
  by_cases h : i.tmpObjects.length = 0
  · simp [h, List.length_eq_zero.mp h]
  · simp [h]

theorem initAsync_tmpObjects (i : InjectWrapper) : (i.InitAsync).tmpObjects = [] := by
  unfold InjectWrapper.InitAsync
  by_cases h : i.tmpObjects.length = 0
  · simp [h, List.length_eq_zero.mp h]
  · simp [h]

theorem initSync_of_nil {i : InjectWrapper} (h : i.tmpObjects = []) : i.InitSync = i := by
  unfold InjectWrapper.InitSync
  simp [h]

theorem initAsync_of_nil {i : InjectWrapper} (h : i.tmpObjects = []) : i.InitAsync = i := by
  unfold InjectWrapper.InitAsync
  simp [h]

theorem initSync_idem (i : InjectWrapper) : (i.InitSync).InitSync = i.InitSync :=
  initSync_of_nil (initSync_tmpObjects i)

theorem initSync_objects (i : InjectWrapper) :
    (i.InitSync).objects = i.objects ++ i.tmpObjects.map (fun o => [o]) := by
  unfold InjectWrapper.InitSync
  by_cases h : i.tmpObjects.length = 0
  · simp [h, List.length_eq_zero.mp h]
  · simp [h]

theorem initSync_g (i : InjectWrapper) : (i.InitSync).g = i.g := by
  unfold InjectWrapper.InitSync
  by_cases h : i.tmpObjects.length = 0
  · simp [h]
  · simp [h]

/-- C3: with no intervening batch-closing call, initializing directly
equals closing the buffer as singleton sync batches first and then
initializing; the implicit close puts each buffered entry in its own
singleton batch, appended in registration order, and empties the buffer,
all before Populate and the per-batch init loop run. -/
theorem C3_default_close_is_sync_singletons (i : InjectWrapper) :
    i.InitializeGraphWithImplicitObjects = (i.InitSync).InitializeGraphWithImplicitObjects ∧
    i.InitializeGraph = (i.InitSync).InitializeGraph ∧
    (i.InitSync).objects = i.objects ++ i.tmpObjects.map (fun o => [o]) ∧
    (i.InitSync).tmpObjects = [] := by
  have h1 : i.InitializeGraphWithImplicitObjects
      = (i.InitSync).InitializeGraphWithImplicitObjects := by
    unfold InjectWrapper.InitializeGraphWithImplicitObjects
    rw [initSync_idem]
  refine ⟨h1, ?_, initSync_objects i, initSync_tmpObjects i⟩
  unfold InjectWrapper.InitializeGraph
  rw [h1]

/-- C7: a non-nil constructor error makes WithObjectOrErr panic at once,
propagating that error with the receiver state untouched (nothing is
registered in the graph or the buffer); a nil error makes it behave
exactly as WithObject. -/
theorem C7_withObjectOrErr_semantics (i : InjectWrapper) (object : GoValue) :
    (∀ e, i.WithObjectOrErr object (some e) = .error (e, i)) ∧
    i.WithObjectOrErr object none = i.WithObject object :=
  ⟨fun _ => rfl, rfl⟩

/-- C8: InitAsync with a non-empty registration buffer appends the whole
buffer as one batch at the end of the batch list, empties the buffer and
leaves the graph untouched; with an empty buffer it changes nothing. -/
theorem C8_initAsync_one_batch (i : InjectWrapper) :
    (i.tmpObjects ≠ [] →
      (i.InitAsync).objects = i.objects ++ [i.tmpObjects] ∧
      (i.InitAsync).tmpObjects = [] ∧ (i.InitAsync).g = i.g) ∧
    (i.tmpObjects = [] → i.InitAsync = i) := by
  constructor
  · intro h
    have hl : ¬ i.tmpObjects.length = 0 := fun hl => h (List.length_eq_zero.mp hl)
    unfold InjectWrapper.InitAsync
    simp [hl]
  · intro h
    exact initAsync_of_nil h

/-- Witness for C8 on concrete containers. -/
theorem C8_initAsync_one_batch_witness :
    ((diC8.InitAsync).objects = diC8.objects ++ [diC8.tmpObjects] ∧
     (diC8.InitAsync).tmpObjects = [] ∧ (diC8.InitAsync).g = diC8.g) ∧
    diC8e.InitAsync = diC8e :=
  ⟨(C8_initAsync_one_batch diC8).1 (by decide),
   (C8_initAsync_one_batch diC8e).2 rfl⟩

/-- C10: both batch-closing operations leave the registration buffer
empty, so a second closing call of either kind right after a first one is
a no-op on the whole container state. -/
theorem C10_batch_closing_second_noop (i : InjectWrapper) :
    (i.InitAsync).tmpObjects = [] ∧ (i.InitSync).tmpObjects = [] ∧
    (i.InitAsync).InitAsync = i.InitAsync ∧ (i.InitAsync).InitSync = i.InitAsync ∧
    (i.InitSync).InitSync = i.InitSync ∧ (i.InitSync).InitAsync = i.InitSync :=
  ⟨initAsync_tmpObjects i, initSync_tmpObjects i,
   initAsync_of_nil (initAsync_tmpObjects i), initSync_of_nil (initAsync_tmpObjects i),
   initSync_of_nil (initSync_tmpObjects i), initAsync_of_nil (initSync_tmpObjects i)⟩

/- Helper lemmas about teardown and query. -/

theorem allObjectsLoop_eq (bs : List (List Object)) :
    allObjectsLoop bs = bs.flatten.map (fun o => o.value) := by
  induction bs with
  | nil => rfl
  | cons b rest ih => simp [allObjectsLoop, ih]

theorem stopLoop_eq (vs : List GoValue) :
    stopLoop vs = (cleanersOf vs, cleanErrorsOf vs) := by
  induction vs with
  | nil => rfl
  | cons v rest ih =>
    match h : v.cleanr with
    | none =>
      simp [stopLoop, cleanersOf, cleanErrorsOf, List.filter_cons, List.filterMap_cons, h, ih]
    | some none =>
      simp [stopLoop, cleanersOf, cleanErrorsOf, List.filter_cons, List.filterMap_cons, h, ih]
    | some (some e) =>
      simp [stopLoop, cleanersOf, cleanErrorsOf, List.filter_cons, List.filterMap_cons, h, ih]

theorem findInBatch_eq (objs : List Object) (t n : String) :
    findInBatch objs t n
      = (objs.find? (fun o => o.value.type == t && o.name == n)).map (fun o => o.value) := by
  induction objs with
  | nil => rfl
  | cons o rest ih =>
    cases hp : (o.value.type == t && o.name == n) with
    | true =>
      have h : o.value.type = t ∧ o.name = n := by
        simpa [Bool.and_eq_true, beq_iff_eq] using hp
      simp [findInBatch, h, List.find?_cons, hp]
    | false =>
      have h : ¬ (o.value.type = t ∧ o.name = n) := by
        intro hc
        simp [hc.1, hc.2] at hp
      simp [findInBatch, h, List.find?_cons, hp, ih]

theorem findObject_eq (bs : List (List Object)) (t n : String) :
    findObject bs t n
      = (bs.flatten.find? (fun o => o.value.type == t && o.name == n)).map (fun o => o.value) := by
  induction bs with
  | nil => rfl
  | cons b rest ih =>
    rw [List.flatten_cons, List.find?_append]
    unfold findObject
    rw [findInBatch_eq]
    cases h : b.find? (fun o => o.value.type == t && o.name == n) with
    | none => simp [Option.or, ih]
    | some o => simp [Option.or]

/-- C4: Stop invokes Clean on exactly the batch-list objects implementing
Cleaner, in batch-then-entry order; a non-nil Clean error only adds a
line to the error sink and never prevents later Clean calls (the trace is
the full order-preserving filter of the batch list); Stop is a total
function of the state, with no panic branch. -/
theorem C4_stop_cleans_every_cleaner (i : InjectWrapper) :
    i.Stop = (cleanersOf i.AllObjects, cleanErrorsOf i.AllObjects) ∧
    i.AllObjects = (i.objects).flatten.map (fun o => o.value) :=
  ⟨stopLoop_eq _, allObjectsLoop_eq _⟩

/-- C6: MustGetNamedObject panics when the sample kind is not pointer;
otherwise it returns the value of the first entry in batch-then-entry
order whose runtime type equals that of the sample and whose name equals
the requested name exactly, and panics when no entry matches. -/
theorem C6_mustGetNamedObject_spec (i : InjectWrapper) (sample : GoValue) (name : String) :
    i.MustGetNamedObject sample name =
      (if sample.kindPtr = true then
        match firstMatch i sample.type name with
        | some o => Except.ok o.value
        | none => Except.error ("Object not found: " ++ name ++ "." ++ sample.type)
      else Except.error ("Sample must be interface, found " ++ sample.type)) := by
  unfold InjectWrapper.MustGetNamedObject firstMatch
  cases hk : sample.kindPtr with
  | false => simp
  | true =>
    rw [findObject_eq]
    cases h : (i.objects).flatten.find? (fun o => o.value.type == sample.type && o.name == name) with
    | none => simp [h]
    | some o => simp [h]

/-- C9: with several same-type same-name entries in the batch list, the
query returns the value of the first matching entry in batch-then-entry
order and never the value of a later matching entry. -/
theorem C9_first_match_wins (i : InjectWrapper) (sample : GoValue) (name : String)
    (l₁ l₂ : List Object) (o : Object)
    (hk : sample.kindPtr = true)
    (hsplit : (i.objects).flatten = l₁ ++ o :: l₂)
    (hmatch : o.value.type = sample.type ∧ o.name = name)
    (hfirst : ∀ p ∈ l₁, ¬ (p.value.type = sample.type ∧ p.name = name)) :
    i.MustGetNamedObject sample name = .ok o.value ∧
    ∀ p ∈ l₂, p.value ≠ o.value → i.MustGetNamedObject sample name ≠ .ok p.value := by
  have hfind : (i.objects).flatten.find?
      (fun q => q.value.type == sample.type && q.name == name) = some o := by
    rw [hsplit, List.find?_append]
    have h1 : l₁.find? (fun q => q.value.type == sample.type && q.name == name) = none :=
      List.find?_eq_none.mpr
        (fun q hq => by simpa [Bool.and_eq_true, beq_iff_eq] using hfirst q hq)
    rw [h1]
    have hp : (o.value.type == sample.type && o.name == name) = true := by
      simp [hmatch.1, hmatch.2]
    simp [List.find?_cons, hp, Option.or]
  have hmain : i.MustGetNamedObject sample name = .ok o.value := by
    unfold InjectWrapper.MustGetNamedObject
    rw [findObject_eq, hfind]
    simp [hk]
  refine ⟨hmain, ?_⟩
  intro p _ hne
  rw [hmain]
  intro hcontra
  have hval : o.value = p.value := by injection hcontra
  exact hne hval.symm

/-- Witness for C9: of two same-typed unnamed registrations in separate
batches, the query returns the first and not the second. -/
theorem C9_first_match_wins_witness :
    diC9.MustGetNamedObject sampleC9 "" = .ok objC9a.value ∧
    diC9.MustGetNamedObject sampleC9 "" ≠ .ok objC9b.value := by
  have h := C9_first_match_wins diC9 sampleC9 "" [] [objC9b] objC9a
    rfl (by decide) (by decide) (by simp)
  exact ⟨h.1, h.2 objC9b (by simp) (by decide)⟩

/- Helper lemmas about the implicit-object check and initialization. -/

theorem valueInBatches_iff (bs : List (List Object)) (v : GoValue) :
    valueInBatches bs v = true ↔ v ∈ bs.flatten.map (fun o => o.value) := by
  simp only [valueInBatches, List.any_eq_true, List.mem_flatten, List.mem_map, beq_iff_eq]
  constructor
  · rintro ⟨l, hl, o, ho, hov⟩
    exact ⟨o, ⟨l, hl, ho⟩, hov⟩
  · rintro ⟨o, ⟨l, hl, ho⟩, hov⟩
    exact ⟨l, hl, o, ho, hov⟩

theorem checkLoop_eq (bs : List (List Object)) (l : List Object) :
    checkLoop bs l =
      match l.find? (fun o => ! valueInBatches bs o.value) with
      | some o => Except.error (o.value.type ++ " not explicitly created")
      | none => Except.ok () := by
  induction l with
  | nil => rfl
  | cons o rest ih =>
    cases h : valueInBatches bs o.value with
    | true => simp [checkLoop, h, List.find?_cons, ih]
    | false => simp [checkLoop, h, List.find?_cons]

theorem withResolved_initSync (i : InjectWrapper) (r : List Object) :
    (withResolved i r).InitSync = withResolved (i.InitSync) r := by
  unfold withResolved InjectWrapper.InitSync
  by_cases h : i.tmpObjects.length = 0
  · simp [h]
  · simp [h]

theorem flatten_singletons (l : List Object) : (l.map (fun o => [o])).flatten = l := by
  induction l with
  | nil => rfl
  | cons o rest ih => simp [ih]

theorem initSync_flatten (i : InjectWrapper) :
    ((i.InitSync).objects).flatten = (i.objects).flatten ++ i.tmpObjects := by
  rw [initSync_objects, List.flatten_append, flatten_singletons]

theorem registeredValues_eq (i : InjectWrapper) :
    registeredValues i = ((i.InitSync).objects).flatten.map (fun o => o.value) := by
  rw [initSync_flatten]
  rfl

theorem count_filter_pred (p : GoValue → Bool) (v : GoValue) (h : p v = true)
    (l : List GoValue) : (l.filter p).count v = l.count v := by
  induction l with
  | nil => rfl
  | cons w rest ih =>
    by_cases hw : w = v
    · subst hw
      simp [List.filter_cons, h, List.count_cons, ih]
    · cases hpw : p w <;> simp [List.filter_cons, hpw, List.count_cons, hw, ih]

theorem initAsyncLoop_ok (objs : List Object)
    (h : ∀ o ∈ objs, o.value.initr = none ∨ o.value.initr = some none) :
    initAsyncLoop objs
      = .ok ((objs.map (fun o => o.value)).filter (fun v => v.initr.isSome)) := by
  induction objs with
  | nil => rfl
  | cons o rest ih =>
    have ho := h o (List.mem_cons_self o rest)
    have hrest : ∀ p ∈ rest, p.value.initr = none ∨ p.value.initr = some none :=
      fun p hp => h p (List.mem_cons_of_mem o hp)
    cases ho with
    | inl h0 => simp [initAsyncLoop, h0, ih hrest, List.filter_cons]
    | inr h1 => simp [initAsyncLoop, h1, ih hrest, List.filter_cons]

theorem runBatches_ok (bs : List (List Object))
    (h : ∀ b ∈ bs, ∀ o ∈ b, o.value.initr = none ∨ o.value.initr = some none) :
    runBatches bs
      = .ok ((bs.flatten.map (fun o => o.value)).filter (fun v => v.initr.isSome)) := by
  induction bs with
  | nil => rfl
  | cons b rest ih =>
    have hb := h b (List.mem_cons_self b rest)
    have hrest : ∀ b' ∈ rest, ∀ o ∈ b', o.value.initr = none ∨ o.value.initr = some none :=
      fun b' hb' => h b' (List.mem_cons_of_mem b hb')
    simp [runBatches, initAsyncLoop_ok b hb, ih hrest, List.flatten_cons, List.filter_append]

/-- C2: the strict-mode check panics, naming the offending type, exactly
when some resolved object is not identity-equal to any batch-list entry
value (the membership meaning of the nested scan is made explicit);
InitializeGraph is InitializeGraphWithImplicitObjects followed by the
check; InitializeGraphWithImplicitObjects itself never reads the
resolved object set, so it tolerates implicit objects. -/
theorem C2_strict_mode_check (i : InjectWrapper) (r : List Object) :
    (i.CheckNoImplicitObjects =
      match (i.g.resolvedObjects).find? (fun o => ! valueInBatches i.objects o.value) with
      | some o => Except.error (o.value.type ++ " not explicitly created")
      | none => Except.ok i) ∧
    (∀ v, valueInBatches i.objects v = true ↔ v ∈ (i.objects).flatten.map (fun o => o.value)) ∧
    (i.InitializeGraph =
      match i.InitializeGraphWithImplicitObjects with
      | .error e => .error e
      | .ok (j, tr) =>
        match j.CheckNoImplicitObjects with
        | .error e => .error e
        | .ok k => .ok (k, tr)) ∧
    ((withResolved i r).InitializeGraphWithImplicitObjects =
      match i.InitializeGraphWithImplicitObjects with
      | .error e => .error e
      | .ok (j, tr) => .ok (withResolved j r, tr)) := by
  refine ⟨?_, fun v => valueInBatches_iff _ v, rfl, ?_⟩
  · unfold InjectWrapper.CheckNoImplicitObjects
    rw [checkLoop_eq]
    cases h : (i.g.resolvedObjects).find? (fun o => ! valueInBatches i.objects o.value) <;>
      simp [h]
  · unfold InjectWrapper.InitializeGraphWithImplicitObjects
    rw [withResolved_initSync]
    cases hp : (i.InitSync).g.populateRes with
    | some e => simp [withResolved, hp]
    | none =>
      cases hr : runBatches ((i.InitSync).objects) with
      | error e => simp [withResolved, hp, hr]
      | ok tr => simp [withResolved, hp, hr]

/-- C1 (amended): whenever Populate succeeds, every resolved object is
one of the registered objects (all dependencies resolvable from the
registrations) and every registered Init hook returns a nil error,
InitializeGraph succeeds and its init trace names every registered
Initializer exactly once. -/
theorem C1_initializeGraph_inits_each_once (i : InjectWrapper)
    (hpop : i.g.populateRes = none)
    (hres : ∀ o ∈ i.g.resolvedObjects, o.value ∈ registeredValues i)
    (hinit : ∀ v ∈ registeredValues i, v.initr = none ∨ v.initr = some none)
    (hnodup : (registeredValues i).Nodup) :
    i.InitializeGraph
      = .ok (i.InitSync, (registeredValues i).filter (fun v => v.initr.isSome)) ∧
    ∀ v ∈ registeredValues i, v.initr.isSome = true →
      ((registeredValues i).filter (fun v => v.initr.isSome)).count v = 1 := by
  constructor
  · have hreg := registeredValues_eq i
    have hrun : runBatches ((i.InitSync).objects)
        = .ok ((registeredValues i).filter (fun v => v.initr.isSome)) := by
      rw [runBatches_ok]
      · rw [hreg]
      · intro b hb o ho
        apply hinit
        rw [hreg]
        exact List.mem_map_of_mem _ (List.mem_flatten.mpr ⟨b, hb, ho⟩)
    have hIGW : i.InitializeGraphWithImplicitObjects
        = .ok (i.InitSync, (registeredValues i).filter (fun v => v.initr.isSome)) := by
      unfold InjectWrapper.InitializeGraphWithImplicitObjects
      simp [initSync_g, hpop, hrun]
    have hcheck : checkLoop ((i.InitSync).objects) i.g.resolvedObjects = .ok () := by
      rw [checkLoop_eq]
      have hnone : (i.g.resolvedObjects).find?
          (fun o => ! valueInBatches ((i.InitSync).objects) o.value) = none := by
        rw [List.find?_eq_none]
        intro o ho
        have hmem : valueInBatches ((i.InitSync).objects) o.value = true := by
          rw [valueInBatches_iff, ← hreg]
          exact hres o ho
        simp [hmem]
      rw [hnone]
    have hCheck2 : (i.InitSync).CheckNoImplicitObjects = .ok (i.InitSync) := by
      unfold InjectWrapper.CheckNoImplicitObjects
      rw [initSync_g, hcheck]
    unfold InjectWrapper.InitializeGraph
    rw [hIGW]
    simp [hCheck2]
  · intro v hv hsome
    rw [count_filter_pred (fun w => w.initr.isSome) v hsome]
    exact List.count_eq_one_of_mem hnodup hv

/-- Witness for C1 on a concrete container: one registered Initializer
whose hook returns nil, resolved set equal to the registration. -/
theorem C1_initializeGraph_inits_each_once_witness :
    diC1.InitializeGraph
      = .ok (diC1.InitSync, (registeredValues diC1).filter (fun v => v.initr.isSome)) ∧
    ((registeredValues diC1).filter (fun v => v.initr.isSome)).count objC1.value = 1 :=
  ⟨(C1_initializeGraph_inits_each_once diC1 rfl (by decide) (by decide) (by decide)).1,
   (C1_initializeGraph_inits_each_once diC1 rfl (by decide) (by decide) (by decide)).2
     objC1.value (by decide) (by decide)⟩

/-- Counterexample to C1 as stated: a container whose dependencies are
fully resolvable (Populate succeeds and the resolved set is exactly the
registration) but whose single registered Init hook returns an error;
InitializeGraph panics instead of returning. -/
theorem C1_counterexample :
    diC1bad.g.populateRes = none ∧
    diC1bad.g.resolvedObjects = [objC1bad] ∧
    objC1bad.value ∈ registeredValues diC1bad ∧
    diC1bad.InitializeGraph
      = .error "Error initializing privided object *inject.Object:boom" :=
  ⟨rfl, rfl, by decide, rfl⟩

/-- C5 (evaluation of the code at failing inputs): two containers that
differ only in the runtime type of the single failing object produce the
identical panic message, because the %T verb is applied to the
*inject.Object wrapper rather than to the stored value; the message
therefore does not carry the type of the failing object. -/
theorem C5_init_error_message_ignores_type :
    diC5a.InitializeGraph
      = .error "Error initializing privided object *inject.Object:boom" ∧
    diC5b.InitializeGraph
      = .error "Error initializing privided object *inject.Object:boom" ∧
    objC5a.value.type ≠ objC5b.value.type :=
  ⟨rfl, rfl, by decide⟩

end Diwrapper
